import Mathlib

/-!
Verification of the change-detection core of `discord_server_watcher.py`.

The embedding models the pure content of the poll cycle: the identity
resolver `_key`, the state store `load_state` and `save_state`, the watch
filter, the diff computed in `WatcherBot.poller`, the event emission order,
and the reply of the `/status` command.  External I/O (the HTTP fetch, the
Discord channel, the file system) is represented by explicit inputs: the
fetch result is an `Except` value, the success of a state-file write is a
boolean input, and the persisted file is carried in the state.
-/

/-- A JSON scalar value as it can occur in a registry record field.
Registry records are JSON objects; the watcher reads only scalar fields. -/
inductive JVal where
  | null : JVal
  | str : String → JVal
  | int : Int → JVal
deriving DecidableEq, Repr

/-- A raw registry record, restricted to the fields the watcher reads:
`name`, `public_ip`, `port` and `map`.  A field is `none` when the key is
absent from the JSON object.  `name`, `public_ip` and `map` are modelled
for string-valued occurrences (the registry schema); `port` may be any
scalar, since the code runs it through the Python `int` conversion. -/
structure RawRecord where
  name : Option String
  public_ip : Option String
  port : Option JVal
  map : Option String
deriving DecidableEq, Repr

/-- `ServerKey = Tuple[str, str, int]`: (name, public_ip, port). -/
abbrev ServerKey := String × String × Int

/-- Python comparison of `(str, str, int)` tuples: lexicographic over the
three components. `sorted` in the source orders keys by this relation. -/
def keyLe (a b : ServerKey) : Prop :=
  a.1 < b.1 ∨ (a.1 = b.1 ∧ (a.2.1 < b.2.1 ∨ (a.2.1 = b.2.1 ∧ a.2.2 ≤ b.2.2)))

instance : DecidableRel keyLe := fun a b => by
  unfold keyLe; infer_instance

instance : IsTrans ServerKey keyLe where
  trans := by
    rintro ⟨a1, a2, a3⟩ ⟨b1, b2, b3⟩ ⟨c1, c2, c3⟩ hab hbc
    rcases hab with h1 | ⟨rfl, h1⟩
    · rcases hbc with h2 | ⟨rfl, h2⟩
      · exact Or.inl (lt_trans h1 h2)
      · exact Or.inl h1
    · rcases hbc with h2 | ⟨rfl, h2⟩
      · exact Or.inl h2
      · refine Or.inr ⟨rfl, ?_⟩
        rcases h1 with h1 | ⟨rfl, h1⟩
        · rcases h2 with h2 | ⟨rfl, h2⟩
          · exact Or.inl (lt_trans h1 h2)
          · exact Or.inl h1
        · rcases h2 with h2 | ⟨rfl, h2⟩
          · exact Or.inl h2
          · exact Or.inr ⟨rfl, le_trans h1 h2⟩

theorem keyLe_def (a1 b1 a2 b2 : String) (a3 b3 : Int) :
    keyLe (a1, a2, a3) (b1, b2, b3) ↔
      a1 < b1 ∨ (a1 = b1 ∧ (a2 < b2 ∨ (a2 = b2 ∧ a3 ≤ b3))) := Iff.rfl

instance : IsAntisymm ServerKey keyLe where
  antisymm := by
    rintro ⟨a1, a2, a3⟩ ⟨b1, b2, b3⟩ hab hba
    rw [keyLe_def] at hab hba
    obtain h1 | ⟨rfl, h1⟩ := hab
    · obtain h2 | ⟨e2, h2⟩ := hba
      · exact absurd h2 (lt_asymm h1)
      · exact absurd h1 (by simp [e2])
    · obtain h2 | ⟨-, h2⟩ := hba
      · exact absurd h2 (lt_irrefl _)
      · obtain h1 | ⟨rfl, h1⟩ := h1
        · obtain h2 | ⟨e2, h2⟩ := h2
          · exact absurd h2 (lt_asymm h1)
          · exact absurd h1 (by simp [e2])
        · obtain h2 | ⟨-, h2⟩ := h2
          · exact absurd h2 (lt_irrefl _)
          · simp [le_antisymm h1 h2]

instance : IsTotal ServerKey keyLe where
  total := by
    rintro ⟨a1, a2, a3⟩ ⟨b1, b2, b3⟩
    rcases lt_trichotomy a1 b1 with h1 | rfl | h1
    · exact Or.inl (Or.inl h1)
    · rcases lt_trichotomy a2 b2 with h2 | rfl | h2
      · exact Or.inl (Or.inr ⟨rfl, Or.inl h2⟩)
      · rcases le_total a3 b3 with h3 | h3
        · exact Or.inl (Or.inr ⟨rfl, Or.inr ⟨rfl, h3⟩⟩)
        · exact Or.inr (Or.inr ⟨rfl, Or.inr ⟨rfl, h3⟩⟩)
      · exact Or.inr (Or.inr ⟨rfl, Or.inl h2⟩)
    · exact Or.inr (Or.inl h1)

/-- A Snapshot: the set of currently known server keys. -/
abbrev Snapshot := Finset ServerKey

/-- Conversion of a digit run to a number, used by the model of the Python
`int` conversion on strings: succeeds exactly on a non-empty all-digit run. -/
def digitsToNat (cs : List Char) : Option Nat :=
  if cs ≠ [] ∧ cs.all Char.isDigit then
    some (cs.foldl (fun a c => a * 10 + (c.toNat - 48)) 0)
  else none

/-- Surrounding-whitespace removal on a character list, for the model of
the Python `int` conversion. -/
def trimWs (cs : List Char) : List Char :=
  ((cs.dropWhile Char.isWhitespace).reverse.dropWhile Char.isWhitespace).reverse

/-- Model of the Python `int(s)` conversion for a string argument: strips
surrounding whitespace, accepts an optional sign followed by digits, and
raises `ValueError` (here: `none`) on anything else. -/
def pyStrToInt (s : String) : Option Int :=
  match trimWs s.toList with
  | '-' :: rest => (digitsToNat rest).map (fun n => -(n : Int))
  | '+' :: rest => (digitsToNat rest).map (fun n => (n : Int))
  | cs => (digitsToNat cs).map (fun n => (n : Int))

/-- Model of the Python `int(v)` conversion on a JSON scalar: an integer is
returned unchanged, a string is parsed, and `None` raises `TypeError`
(here: `none`). -/
def pyInt : JVal → Option Int
  | JVal.int n => some n
  | JVal.str s => pyStrToInt s
  | JVal.null => none

/-- The identity resolver `_key` of the source:
`(s.get("name", ""), s.get("public_ip", ""), int(s.get("port", 0)))`.
Missing `name` and `public_ip` default to `""`, a missing `port` defaults
to `0`; a present `port` goes through `int(...)`, which can raise — the
`none` result models that exception. -/
def _key (s : RawRecord) : Option ServerKey :=
  match s.port with
  | none => some (s.name.getD "", s.public_ip.getD "", 0)
  | some p =>
    match pyInt p with
    | some n => some (s.name.getD "", s.public_ip.getD "", n)
    | none => none

/-- `save_state` of the source: the JSON document it writes,
`[list(k) for k in sorted(keys)]` — the keys as a sorted list. -/
def save_state (keys : Snapshot) : List ServerKey :=
  keys.sort keyLe

/-- `load_state` of the source: a missing or unreadable state file
(`none`) yields the empty set, otherwise the set of the listed tuples. -/
def load_state (file : Option (List ServerKey)) : Snapshot :=
  match file with
  | none => ∅
  | some l => l.toFinset

/-- The watch filter as applied in `WatcherBot.poller` and in `status_cmd`:
`if self.watch_names: servers = [s for s in servers if s.get("name") in self.watch_names]`.
An empty filter keeps every record; a non-empty filter keeps exactly the
records whose present `name` is a member (a record with no `name` field has
`s.get("name") = None`, which is never a member). -/
def tracked (watch : Finset String) (servers : List RawRecord) : List RawRecord :=
  if watch = ∅ then servers
  else servers.filter (fun s =>
    match s.name with
    | some n => decide (n ∈ watch)
    | none => false)

/-- The diff of lines 189-190 of the source:
`ups = current - self._last_seen` and `downs = self._last_seen - current`. -/
def diff (previous current : Snapshot) : Snapshot × Snapshot :=
  (current \ previous, previous \ current)

/-- The mutable state a poll cycle can touch: the in-memory snapshot
`self._last_seen` and the content of the persisted state file (`none`
when the file is absent). -/
structure PollState where
  lastSeen : Snapshot
  file : Option (List ServerKey)
deriving DecidableEq

/-- An availability-change event as emitted by the poll cycle, either to
the configured channel or to the informational log. -/
inductive Event where
  | up : ServerKey → Event
  | down : ServerKey → Event
deriving DecidableEq, Repr

/-- The observable outcome of one execution of the `poller` body:
the state afterwards, whether a state-file write was attempted, the
emitted events in order, the warning-level log lines, and whether the
body raised an exception (escaping the function). -/
structure PollResult where
  state : PollState
  saveAttempted : Bool
  events : List Event
  warnings : List String
  raised : Bool
deriving DecidableEq

/-- One execution of the body of `WatcherBot.poller` (lines 177-204),
with the fetch outcome and the success of a state-file write as inputs.
On a fetch error the body logs a warning and returns; otherwise it
filters, resolves keys (the set comprehension raises iff `_key` raises on
some record), diffs against `lastSeen`, persists and swaps the snapshot
only when the delta is non-empty (`save_state` swallows a write failure
silently), and finally emits the sorted UP events then the sorted DOWN
events. -/
def poller (st : PollState) (watch : Finset String)
    (fetch : Except String (List RawRecord)) (writeOk : Bool) : PollResult :=
  match fetch with
  | Except.error e =>
    { state := st, saveAttempted := false, events := [],
      warnings := ["Fetch error: " ++ e], raised := false }
  | Except.ok servers =>
    let servers' := tracked watch servers
    if ∀ s ∈ servers', (_key s).isSome then
      let current : Snapshot := (servers'.filterMap _key).toFinset
      let d := diff st.lastSeen current
      let changed : Bool := decide (d.1 ≠ ∅ ∨ d.2 ≠ ∅)
      let st' : PollState :=
        if d.1 ≠ ∅ ∨ d.2 ≠ ∅ then
          { lastSeen := current,
            file := if writeOk then some (save_state current) else st.file }
        else st
      { state := st',
        saveAttempted := changed,
        events := (d.1.sort keyLe).map Event.up ++ (d.2.sort keyLe).map Event.down,
        warnings := [],
        raised := false }
    else
      { state := st, saveAttempted := false, events := [],
        warnings := [], raised := true }

/-- String rendering of a JSON scalar inside a Python f-string, as used by
`_format_servers` for the `port` field. -/
def JVal.fmt : JVal → String
  | JVal.null => "None"
  | JVal.str s => s
  | JVal.int n => toString n

/-- `WatcherBot._format_servers`: the empty string for an empty list,
otherwise a header line followed by one bullet line per record with the
fields defaulted to `?`. -/
def _format_servers (servers : List RawRecord) : String :=
  if servers = [] then ""
  else
    let lines := "**Current Servers**" ::
      servers.map (fun s =>
        "• " ++ s.name.getD "?" ++ " — `" ++ s.public_ip.getD "?" ++ ":" ++
          (match s.port with
           | some p => p.fmt
           | none => "?") ++ "` (map: " ++ s.map.getD "?" ++ ")")
    String.intercalate "\n" lines

/-- The reply text of the `/status` command (lines 83-92): on a fetch
failure the handler catches the exception and replies with an error
message; on success it applies the watch filter, formats the result, and
falls back to a fixed text when the formatted string is empty.  The
handler never consults the stored snapshot `self._last_seen`. -/
def status_reply (watch : Finset String)
    (fetch : Except String (List RawRecord)) : String :=
  match fetch with
  | Except.error e => "Error: " ++ e
  | Except.ok servers =>
    let msg := _format_servers (tracked watch servers)
    if msg = "" then "No servers found." else msg

/-! ## Sample data for concrete instances -/

/-- A well-formed registry record (name A). -/
def recA : RawRecord := ⟨some "A", some "1.1.1.1", some (JVal.int 100), none⟩

/-- The key resolved from `recA`. -/
def keyA : ServerKey := ("A", "1.1.1.1", 100)

/-- A well-formed registry record (name B). -/
def recB : RawRecord := ⟨some "B", some "2.2.2.2", some (JVal.int 200), none⟩

/-- The key resolved from `recB`. -/
def keyB : ServerKey := ("B", "2.2.2.2", 200)

/-! ## Claims -/

/-- C1: the poll cycle computes appeared = current minus previous and
disappeared = previous minus current as ordinary set differences, the
diff of a snapshot with itself is empty in both components, and the two
components of one diff are disjoint, so no key can be in both. -/
theorem diff_is_set_difference (A B : Snapshot) :
    (diff A B).1 = B \ A ∧ (diff A B).2 = A \ B ∧
    diff A A = (∅, ∅) ∧ Disjoint (diff A B).1 (diff A B).2 := by
  refine ⟨rfl, rfl, by simp [diff], ?_⟩
  simpa [diff] using disjoint_sdiff_sdiff

/-- C2: when the registry fetch fails, the poll cycle logs the failure and
returns at once: the in-memory snapshot and the persisted state file are
unchanged, no save is attempted, and no events are emitted. -/
theorem poller_fetch_error (st : PollState) (watch : Finset String)
    (e : String) (writeOk : Bool) :
    poller st watch (Except.error e) writeOk =
      { state := st, saveAttempted := false, events := [],
        warnings := ["Fetch error: " ++ e], raised := false } := rfl

/-- C4: loading the persisted form of any snapshot returns the snapshot,
and the persisted form is deterministic: the keys in lexicographic
sorted order. -/
theorem load_save_roundtrip (S : Snapshot) :
    load_state (some (save_state S)) = S ∧ List.Sorted keyLe (save_state S) := by
  constructor
  · simp [load_state, save_state, Finset.sort_toFinset]
  · exact Finset.sort_sorted keyLe S

/-- C9 counterexample: a status query during a fetch failure replies with
the error text of the exception.  The handler catches the exception and
sends the string starting with Error; it never consults the stored
snapshot (`status_reply` has no snapshot input at all, mirroring the
handler, which reads only the fetch result and the filter), so the reply
cannot report the last-known snapshot or mark it stale. -/
theorem status_fetch_error_counterexample :
    status_reply ∅ (Except.error "timeout") = "Error: timeout" := rfl

/-- C9 amended: a status query issued while the registry fetch fails
replies with an error message built from the exception text; the
last-known snapshot is not reported and no staleness indicator exists. -/
theorem status_fetch_error_reply (watch : Finset String) (e : String) :
    status_reply watch (Except.error e) = "Error: " ++ e := rfl

/-- C3: a poll cycle whose computed delta is empty attempts no persistence
write, leaves the in-memory snapshot and the state file unchanged, and
emits no events — state is persisted only when the delta is non-empty. -/
theorem poller_no_change (st : PollState) (watch : Finset String)
    (servers : List RawRecord) (w : Bool)
    (hall : ∀ s ∈ tracked watch servers, (_key s).isSome)
    (hdelta : diff st.lastSeen ((tracked watch servers).filterMap _key).toFinset = (∅, ∅)) :
    poller st watch (Except.ok servers) w =
      { state := st, saveAttempted := false, events := [], warnings := [],
        raised := false } := by
  simp only [poller]
  rw [if_pos hall]
  simp [hdelta, Finset.sort_empty]

/-- Witness for C3: an unchanged world — the fetch returns exactly the
previously seen server — leaves the whole poll outcome inert. -/
theorem poller_no_change_witness :
    (∀ s ∈ tracked ∅ [recA], (_key s).isSome) ∧
    diff {keyA} ((tracked ∅ [recA]).filterMap _key).toFinset = (∅, ∅) ∧
    poller ⟨{keyA}, some [keyA]⟩ ∅ (Except.ok [recA]) true =
      ⟨⟨{keyA}, some [keyA]⟩, false, [], [], false⟩ :=
  ⟨by decide, by decide,
    poller_no_change ⟨{keyA}, some [keyA]⟩ ∅ [recA] true (by decide) (by decide)⟩

/-- C6 counterexample: the identity resolver is not total.  A record whose
`port` field is present but not convertible by the Python `int` conversion
(here the string `abc`) makes `_key` raise `ValueError`; the set
comprehension in the poll cycle runs `_key` outside the fetch try-block,
so that cycle aborts with an exception (state unchanged, nothing emitted,
`raised = true`). -/
theorem key_not_total_counterexample :
    _key ⟨none, none, some (JVal.str "abc"), none⟩ = none ∧
    (poller ⟨∅, none⟩ ∅ (Except.ok [⟨none, none, some (JVal.str "abc"), none⟩]) true)
      = ⟨⟨∅, none⟩, false, [], [], true⟩ := by
  constructor
  · decide
  · decide

/-- C6 amended: missing fields are defaulted rather than rejected — an
absent name or address becomes the empty string and an absent port
becomes zero, and an integer port is passed through — but the resolver is
not total: a present port value that the `int` conversion rejects raises
and aborts the poll cycle. -/
theorem key_total_on_wellformed (s : RawRecord) :
    (s.port = none → _key s = some (s.name.getD "", s.public_ip.getD "", 0)) ∧
    (∀ n : Int, s.port = some (JVal.int n) →
      _key s = some (s.name.getD "", s.public_ip.getD "", n)) := by
  constructor
  · intro h; simp [_key, h]
  · intro n h; simp [_key, h, pyInt]

/-- Witness for the amended C6: a record with every field missing resolves
to the default key, and a well-formed record resolves to its triple. -/
theorem key_total_on_wellformed_witness :
    _key ⟨none, none, none, none⟩ = some ("", "", 0) ∧
    _key recA = some keyA :=
  ⟨(key_total_on_wellformed _).1 rfl,
   (key_total_on_wellformed recA).2 100 rfl⟩

/-- C7 counterexample: filter monotonicity fails across the empty filter.
The empty filter is a subset of the filter tracking only name A, yet a
record named B survives the empty filter (which tracks everything) and is
dropped by the larger filter, so the tracked set under the smaller filter
is not contained in the tracked set under the larger one. -/
theorem filter_monotone_counterexample :
    (∅ : Finset String) ⊆ {"A"} ∧
    recB ∈ tracked ∅ [recB] ∧
    recB ∉ tracked {"A"} [recB] := by
  refine ⟨by decide, by decide, by decide⟩

/-- C7 amended: filter monotonicity holds between non-empty filters — for
a non-empty filter F contained in a filter F2 and any fetched list, every
record tracked under F is tracked under F2; it fails when F is empty,
since the empty filter tracks everything. -/
theorem filter_monotone_nonempty (F F2 : Finset String)
    (servers : List RawRecord) (hne : F ≠ ∅) (hss : F ⊆ F2) :
    ∀ s ∈ tracked F servers, s ∈ tracked F2 servers := by
  intro s hs
  have hne2 : F2 ≠ ∅ := by
    intro h
    exact hne (Finset.subset_empty.mp (h ▸ hss))
  rw [tracked, if_neg hne] at hs
  rw [tracked, if_neg hne2]
  rw [List.mem_filter] at hs ⊢
  refine ⟨hs.1, ?_⟩
  have h2 := hs.2
  cases hname : s.name with
  | none => rw [hname] at h2; simp at h2
  | some n =>
    rw [hname] at h2
    simp only [decide_eq_true_eq] at h2 ⊢
    exact hss h2

/-- Witness for the amended C7: the record named A tracked under the
filter containing only A is still tracked under the larger filter with A
and B. -/
theorem filter_monotone_nonempty_witness :
    ({"A"} : Finset String) ≠ ∅ ∧ ({"A"} : Finset String) ⊆ {"A", "B"} ∧
    recA ∈ tracked {"A", "B"} [recA, recB] :=
  ⟨by decide, by decide,
    filter_monotone_nonempty {"A"} {"A", "B"} [recA, recB] (by decide) (by decide)
      recA (by decide)⟩

/-- C5: in a cycle that emits events, the full batch of appeared events
precedes every disappeared event, each batch is sorted by the
lexicographic order on (name, address, port), and the outcome is
invariant under reordering of the fetched list. -/
theorem poller_event_order (st : PollState) (watch : Finset String)
    (servers : List RawRecord) (w : Bool)
    (hall : ∀ s ∈ tracked watch servers, (_key s).isSome) :
    (poller st watch (Except.ok servers) w).events =
      ((((tracked watch servers).filterMap _key).toFinset \ st.lastSeen).sort keyLe).map Event.up ++
      ((st.lastSeen \ ((tracked watch servers).filterMap _key).toFinset).sort keyLe).map Event.down ∧
    List.Sorted keyLe ((((tracked watch servers).filterMap _key).toFinset \ st.lastSeen).sort keyLe) ∧
    List.Sorted keyLe ((st.lastSeen \ ((tracked watch servers).filterMap _key).toFinset).sort keyLe) ∧
    ∀ servers2 : List RawRecord, List.Perm servers servers2 →
      poller st watch (Except.ok servers2) w = poller st watch (Except.ok servers) w := by
  refine ⟨?_, Finset.sort_sorted _ _, Finset.sort_sorted _ _, ?_⟩
  · simp only [poller]
    rw [if_pos hall]
    simp [diff]
  · intro servers2 hperm
    have htr : List.Perm (tracked watch servers) (tracked watch servers2) := by
      by_cases hw : watch = ∅
      · simpa [tracked, hw] using hperm
      · rw [tracked, if_neg hw, tracked, if_neg hw]
        exact hperm.filter _
    have hall2 : ∀ s ∈ tracked watch servers2, (_key s).isSome :=
      fun s hs => hall s (htr.mem_iff.mpr hs)
    have hcur : ((tracked watch servers2).filterMap _key).toFinset =
        ((tracked watch servers).filterMap _key).toFinset :=
      List.toFinset_eq_of_perm _ _ (htr.filterMap _).symm
    simp only [poller]
    rw [if_pos hall2, if_pos hall, hcur]

/-- Witness for C5: with server B previously seen and only server A
fetched, the cycle emits the UP event for A and then the DOWN event
for B. -/
theorem poller_event_order_witness :
    (∀ s ∈ tracked ∅ [recA], (_key s).isSome) ∧
    (poller ⟨{keyB}, some [keyB]⟩ ∅ (Except.ok [recA]) true).events =
      [Event.up keyA, Event.down keyB] := by
  refine ⟨by decide, ?_⟩
  have h := (poller_event_order ⟨{keyB}, some [keyB]⟩ ∅ [recA] true (by decide)).1
  rw [h]
  rw [show ((tracked ∅ [recA]).filterMap _key).toFinset = {keyA} from by decide]
  rw [show ({keyA} : Snapshot) \ {keyB} = {keyA} from by decide]
  rw [show ({keyB} : Snapshot) \ {keyA} = {keyB} from by decide]
  simp [Finset.sort_singleton]

/-- C8 counterexample: a failed state write is not logged.  In a cycle
with a non-empty delta and a failing write, the snapshot is replaced and
the UP event is delivered, the state file keeps its old content, but the
warning log of the cycle is empty — `save_state` swallows its exception
with a bare `pass`, so no persistence failure is ever logged. -/
theorem save_failure_not_logged_counterexample :
    (poller ⟨∅, some []⟩ ∅ (Except.ok [recA]) false).warnings = [] ∧
    (poller ⟨∅, some []⟩ ∅ (Except.ok [recA]) false).saveAttempted = true ∧
    (poller ⟨∅, some []⟩ ∅ (Except.ok [recA]) false).state.file = some [] ∧
    (poller ⟨∅, some []⟩ ∅ (Except.ok [recA]) false).state.lastSeen = {keyA} ∧
    (poller ⟨∅, some []⟩ ∅ (Except.ok [recA]) false).events = [Event.up keyA] := by
  refine ⟨?_, ?_, ?_, ?_, ?_⟩ <;>
    simp [poller, tracked, recA, keyA, _key, pyInt, diff, save_state,
      Finset.sort_singleton, Finset.sort_empty, Finset.sdiff_empty, Finset.empty_sdiff]

/-- C8 amended: when the durable state write fails in a cycle with a
non-empty delta, the failure is swallowed silently (no log record), while
the in-memory snapshot is still replaced by the new snapshot, the state
file keeps its previous content, and the ordered appeared/disappeared
events are still delivered. -/
theorem save_failure_silent (st : PollState) (watch : Finset String)
    (servers : List RawRecord)
    (hall : ∀ s ∈ tracked watch servers, (_key s).isSome)
    (hchanged : (diff st.lastSeen ((tracked watch servers).filterMap _key).toFinset).1 ≠ ∅ ∨
                (diff st.lastSeen ((tracked watch servers).filterMap _key).toFinset).2 ≠ ∅) :
    poller st watch (Except.ok servers) false =
      { state := { lastSeen := ((tracked watch servers).filterMap _key).toFinset,
                   file := st.file },
        saveAttempted := true,
        events := ((diff st.lastSeen ((tracked watch servers).filterMap _key).toFinset).1.sort keyLe).map Event.up ++
                  ((diff st.lastSeen ((tracked watch servers).filterMap _key).toFinset).2.sort keyLe).map Event.down,
        warnings := [], raised := false } := by
  simp only [poller]
  rw [if_pos hall, if_pos hchanged]
  simp [hchanged]

/-- Witness for the amended C8: concrete failing write with server A
appearing — snapshot replaced, event delivered, file untouched, log
empty. -/
theorem save_failure_silent_witness :
    (∀ s ∈ tracked ∅ [recA], (_key s).isSome) ∧
    poller ⟨∅, some []⟩ ∅ (Except.ok [recA]) false =
      ⟨⟨{keyA}, some []⟩, true, [Event.up keyA], [], false⟩ := by
  refine ⟨by decide, ?_⟩
  have h := save_failure_silent ⟨∅, some []⟩ ∅ [recA] (by decide) (by decide)
  rw [h]
  rw [show ((tracked ∅ [recA]).filterMap _key).toFinset = {keyA} from by decide]
  simp [diff, Finset.sort_singleton, Finset.sort_empty, Finset.sdiff_empty, Finset.empty_sdiff]

/-- C10: the identity resolver coerces the port with the Python `int`
conversion, so a record whose port is a numeric string resolves to the
same key as the record with the integer port, and a whole poll cycle
fetching the one is indistinguishable from one fetching the other — a
port representation flip is not reported as a server change. -/
theorem key_port_string_int_equiv (nm ip mp : Option String) (s : String) (n : Int)
    (h : pyStrToInt s = some n) :
    _key ⟨nm, ip, some (JVal.str s), mp⟩ = _key ⟨nm, ip, some (JVal.int n), mp⟩ ∧
    ∀ (st : PollState) (watch : Finset String) (w : Bool),
      poller st watch (Except.ok [⟨nm, ip, some (JVal.str s), mp⟩]) w =
      poller st watch (Except.ok [⟨nm, ip, some (JVal.int n), mp⟩]) w := by
  have hkS : _key ⟨nm, ip, some (JVal.str s), mp⟩ = some (nm.getD "", ip.getD "", n) := by
    simp [_key, pyInt, h]
  have hkI : _key ⟨nm, ip, some (JVal.int n), mp⟩ = some (nm.getD "", ip.getD "", n) := by
    simp [_key, pyInt]
  refine ⟨hkS.trans hkI.symm, ?_⟩
  intro st watch w
  by_cases hw : watch = ∅
  · simp [poller, tracked, hw, hkS, hkI]
  · cases nm with
    | none => simp [poller, tracked, hw, List.filter]
    | some x =>
      by_cases hx : x ∈ watch
      · simp [poller, tracked, hw, hx, List.filter, hkS, hkI]
      · simp [poller, tracked, hw, hx, List.filter]

/-- Witness for C10: the string port 8080 parses and yields the same key
as the integer port 8080. -/
theorem key_port_string_int_equiv_witness :
    pyStrToInt "8080" = some 8080 ∧
    _key ⟨some "A", some "1.1.1.1", some (JVal.str "8080"), none⟩ =
      _key ⟨some "A", some "1.1.1.1", some (JVal.int 8080), none⟩ :=
  ⟨by decide,
   (key_port_string_int_equiv (some "A") (some "1.1.1.1") none "8080" 8080 (by decide)).1⟩
